import Mathlib

/-!
Verification of the similarCpp repository's specification claims.

Shallow-embedding conventions used throughout this file:
* Python floats are modelled as `ℚ`;
* Python `int(x)` truncates toward zero (`pyInt`);
* Python `range(a, b)` over integers is `pyRange`;
* Python dictionaries keyed by small ids are modelled as functions;
* fallible code returns `Option`.
-/

namespace SimilarCpp

/-- Python `int(q)` applied to a number: truncation toward zero
(`int(-0.5) == 0`, `int(1.9) == 1`). -/
def pyInt (q : ℚ) : ℤ := if 0 ≤ q then ⌊q⌋ else ⌈q⌉

/-- Python `range(a, b)` over integers: `[a, a+1, …, b-1]`, empty when `b ≤ a`. -/
def pyRange (a b : ℤ) : List ℤ :=
  (List.range (b - a).toNat).map (fun (i : ℕ) => a + (i : ℤ))

theorem mem_pyRange {a b z : ℤ} : z ∈ pyRange a b ↔ a ≤ z ∧ z < b := by
  constructor
  · intro h
    simp only [pyRange, List.mem_map, List.mem_range] at h
    obtain ⟨i, hi, hz⟩ := h
    omega
  · intro h
    simp only [pyRange, List.mem_map, List.mem_range]
    exact ⟨(z - a).toNat, by omega, by omega⟩

theorem pyInt_mono {a b : ℚ} (h : a ≤ b) : pyInt a ≤ pyInt b := by
  unfold pyInt
  split_ifs with h1 h2 h2
  · exact Int.floor_le_floor h
  · exact absurd (le_trans h1 h) h2
  · have ha : (⌈a⌉ : ℤ) ≤ 0 :=
      Int.ceil_le.mpr (by push_cast; exact le_of_lt (not_le.mp h1))
    have hb : (0 : ℤ) ≤ ⌊b⌋ := Int.floor_nonneg.mpr h2
    omega
  · exact Int.ceil_le_ceil h

theorem pyInt_sub_le (a b : ℚ) (h : b ≤ a) : pyInt a - pyInt b ≤ ⌈a - b⌉ := by
  unfold pyInt
  split_ifs with h1 h2 h2
  · -- both nonnegative: ⌊a⌋ − ⌊b⌋ ≤ ⌈a − b⌉
    have h3 : a ≤ b + (⌈a - b⌉ : ℚ) := by linarith [Int.le_ceil (a - b)]
    have h4 := Int.floor_le_floor h3
    rw [Int.floor_add_int] at h4
    omega
  · -- a ≥ 0 > b: ⌊a⌋ − ⌈b⌉ ≤ a − b ≤ ⌈a − b⌉
    have h4 : (⌊a⌋ : ℚ) ≤ a := Int.floor_le a
    have h5 : b ≤ (⌈b⌉ : ℚ) := Int.le_ceil b
    have h6 : a - b ≤ (⌈a - b⌉ : ℚ) := Int.le_ceil _
    have h7 : ((⌊a⌋ - ⌈b⌉ : ℤ) : ℚ) ≤ ((⌈a - b⌉ : ℤ) : ℚ) := by push_cast; linarith
    exact_mod_cast h7
  · exact absurd (le_trans h2 h) h1
  · -- both negative: ⌈a⌉ ≤ ⌈b⌉ + ⌈a − b⌉
    have h3 : ⌈a⌉ ≤ ⌈b⌉ + ⌈a - b⌉ := by
      rw [← Int.ceil_intCast (α := ℚ) (⌈b⌉ + ⌈a - b⌉)]
      apply Int.ceil_le_ceil
      push_cast
      linarith [Int.le_ceil b, Int.le_ceil (a - b)]
    omega

theorem pyInt_close {a b t : ℚ} (h1 : a - b ≤ t) (h2 : b - a ≤ t) :
    pyInt a - pyInt b ≤ ⌈t⌉ ∧ pyInt b - pyInt a ≤ ⌈t⌉ := by
  rcases le_total b a with hba | hab
  · refine ⟨le_trans (pyInt_sub_le a b hba) (Int.ceil_le_ceil h1), ?_⟩
    have hm := pyInt_mono hba
    have ht : (0 : ℚ) ≤ t := le_trans (by linarith) h1
    have hc : (0 : ℤ) ≤ ⌈t⌉ := Int.ceil_nonneg ht
    omega
  · refine ⟨?_, le_trans (pyInt_sub_le b a hab) (Int.ceil_le_ceil h2)⟩
    have hm := pyInt_mono hab
    have ht : (0 : ℚ) ≤ t := le_trans (by linarith) h2
    have hc : (0 : ℤ) ≤ ⌈t⌉ := Int.ceil_nonneg ht
    omega

/-! ### `similar2logo/spatial.py` — `SpatialHashGrid`

The grid stores objects in buckets keyed by integer cell coordinates
(a `defaultdict(list)`; an absent key and an empty bucket behave alike in
`query_radius`, so buckets are modelled as a total function to lists).
An object carries its `position` attribute, read back by `query_radius`. -/

/-- An indexed object: identity plus its current `position` attribute. -/
structure Obj where
  oid : ℕ
  px : ℚ
  py : ℚ
deriving DecidableEq, Repr

/-- The spatial hash grid's state: `cell_size` and the `grid` dict. -/
structure SpatialHashGrid where
  cell_size : ℚ
  bucket : ℤ × ℤ → List Obj

/-- `_get_cell` (spatial.py lines 35-39): `(int(x / cell_size), int(y / cell_size))`;
Python `int()` truncates toward zero. -/
def getCell (g : SpatialHashGrid) (x y : ℚ) : ℤ × ℤ :=
  (pyInt (x / g.cell_size), pyInt (y / g.cell_size))

/-- The squared Euclidean distance `dx_actual**2 + dy_actual**2` computed at
spatial.py lines 93-97.  The code pairs each result with `math.sqrt` of this
value; over `ℚ` we carry the square, which determines the distance. -/
def distSq (x y : ℚ) (o : Obj) : ℚ := (x - o.px) ^ 2 + (y - o.py) ^ 2

/-- `query_radius` (spatial.py lines 60-102): scan the `(2·cell_radius+1)²`
cell window around the query cell, skip `exclude`, keep objects with
`dist_sq <= radius*radius`.  `cell_radius = int(math.ceil(radius / cell_size))`. -/
def queryRadius (g : SpatialHashGrid) (x y radius : ℚ) (exclude : Option Obj) :
    List (Obj × ℚ) :=
  let cr : ℤ := ⌈radius / g.cell_size⌉
  let c := getCell g x y
  (pyRange (-cr) (cr + 1)).flatMap fun dx =>
    (pyRange (-cr) (cr + 1)).flatMap fun dy =>
      (g.bucket (c.1 + dx, c.2 + dy)).filterMap fun o =>
        if some o ≠ exclude ∧ distSq x y o ≤ radius * radius then some (o, distSq x y o)
        else none

/-- An object is indexed when some bucket of the grid holds it. -/
def Indexed (g : SpatialHashGrid) (o : Obj) : Prop := ∃ c, o ∈ g.bucket c

/-- The claim's hypothesis: each indexed object's stored cell corresponds to
its current position attribute. -/
def WellPlaced (g : SpatialHashGrid) : Prop :=
  ∀ c o, o ∈ g.bucket c → c = getCell g o.px o.py

theorem queryRadius_sound (g : SpatialHashGrid) (x y radius : ℚ) (exclude : Option Obj)
    (o : Obj) (d : ℚ) (hmem : (o, d) ∈ queryRadius g x y radius exclude) :
    Indexed g o ∧ some o ≠ exclude ∧ d = distSq x y o ∧ distSq x y o ≤ radius * radius := by
  simp only [queryRadius, List.mem_flatMap, List.mem_filterMap] at hmem
  obtain ⟨dx, _, dy, _, o', ho', hif⟩ := hmem
  by_cases hcond : some o' ≠ exclude ∧ distSq x y o' ≤ radius * radius
  · rw [if_pos hcond] at hif
    have h2 : (o', distSq x y o') = (o, d) := Option.some.inj hif
    have ho : o' = o := congrArg Prod.fst h2
    have hd : distSq x y o' = d := congrArg Prod.snd h2
    subst ho
    exact ⟨⟨_, ho'⟩, hcond.1, hd.symm, hcond.2⟩
  · rw [if_neg hcond] at hif
    exact absurd hif (by simp)

theorem queryRadius_complete (g : SpatialHashGrid) (hcs : 0 < g.cell_size)
    (hwp : WellPlaced g) (x y radius : ℚ) (hr : 0 ≤ radius) (exclude : Option Obj)
    (o : Obj) (hin : Indexed g o) (hne : some o ≠ exclude)
    (hdist : distSq x y o ≤ radius * radius) :
    (o, distSq x y o) ∈ queryRadius g x y radius exclude := by
  obtain ⟨c0, hc0⟩ := hin
  have hcell := hwp c0 o hc0
  -- the object lies within `radius` of the query point in each coordinate
  have hx2 : (x - o.px) ^ 2 ≤ radius * radius := by
    have := sq_nonneg (y - o.py)
    unfold distSq at hdist
    nlinarith
  have hy2 : (y - o.py) ^ 2 ≤ radius * radius := by
    have := sq_nonneg (x - o.px)
    unfold distSq at hdist
    nlinarith
  have hx : |x - o.px| ≤ radius := by
    rw [abs_le]; constructor <;> nlinarith
  have hy : |y - o.py| ≤ radius := by
    rw [abs_le]; constructor <;> nlinarith
  -- hence its cell is within `cell_radius` of the query cell in each coordinate
  have hdivx : |o.px / g.cell_size - x / g.cell_size| ≤ radius / g.cell_size := by
    have heq : o.px / g.cell_size - x / g.cell_size = (o.px - x) / g.cell_size := by ring
    rw [heq, abs_div, abs_of_pos hcs, div_le_div_iff_of_pos_right hcs, abs_sub_comm]
    exact hx
  have hdivy : |o.py / g.cell_size - y / g.cell_size| ≤ radius / g.cell_size := by
    have heq : o.py / g.cell_size - y / g.cell_size = (o.py - y) / g.cell_size := by ring
    rw [heq, abs_div, abs_of_pos hcs, div_le_div_iff_of_pos_right hcs, abs_sub_comm]
    exact hy
  obtain ⟨hbx1, hbx2⟩ :=
    pyInt_close (abs_le.mp hdivx).2 (by linarith [(abs_le.mp hdivx).1])
  obtain ⟨hby1, hby2⟩ :=
    pyInt_close (abs_le.mp hdivy).2 (by linarith [(abs_le.mp hdivy).1])
  simp only [queryRadius, List.mem_flatMap]
  refine ⟨pyInt (o.px / g.cell_size) - pyInt (x / g.cell_size),
    mem_pyRange.mpr ⟨by omega, by omega⟩,
    pyInt (o.py / g.cell_size) - pyInt (y / g.cell_size),
    mem_pyRange.mpr ⟨by omega, by omega⟩, ?_⟩
  have hcb : ((getCell g x y).1 + (pyInt (o.px / g.cell_size) - pyInt (x / g.cell_size)),
      (getCell g x y).2 + (pyInt (o.py / g.cell_size) - pyInt (y / g.cell_size))) = c0 := by
    rw [hcell]
    unfold getCell
    simp only [Prod.mk.injEq]
    omega
  rw [List.mem_filterMap]
  refine ⟨o, ?_, if_pos ⟨hne, hdist⟩⟩
  rw [hcb]
  exact hc0

/-- A grid holding one object at the origin, in the bucket of the cell the
origin hashes to. -/
def objCex : Obj := ⟨0, 0, 0⟩

def gridCex : SpatialHashGrid :=
  ⟨10, fun c => if c = (0, 0) then [objCex] else []⟩

/-- C9 counterexample: the claim holds for no negative radius.  With
`radius = -5` the code compares `dist_sq ≤ radius²= 25` and so returns the
object sitting at the query point, although no object has Euclidean distance
at most `-5` (a distance is nonnegative, and here it is `0 > -5`).  The grid
satisfies the claim's hypothesis (`WellPlaced`). -/
theorem C9_queryRadius_negative_radius_cex :
    (objCex, distSq 0 0 objCex) ∈ queryRadius gridCex 0 0 (-5) none ∧
    WellPlaced gridCex ∧ ¬ (Real.sqrt ((distSq 0 0 objCex : ℚ) : ℝ) ≤ (-5 : ℝ)) := by
  refine ⟨?_, ?_, ?_⟩
  · have hcr : (⌈((-5) : ℚ) / (10 : ℚ)⌉ : ℤ) = 0 := by norm_num
    simp only [queryRadius, gridCex, getCell, pyInt, hcr]
    norm_num [pyRange, objCex, distSq]
    simp
  · intro c o h
    by_cases hc : c = (0, 0)
    · subst hc
      simp [gridCex] at h
      subst h
      norm_num [getCell, gridCex, objCex, pyInt, Prod.ext_iff]
    · simp only [gridCex, if_neg hc, List.not_mem_nil] at h
  · have h0 : (0 : ℝ) ≤ Real.sqrt ((distSq 0 0 objCex : ℚ) : ℝ) := Real.sqrt_nonneg _
    intro hle
    linarith

/-- C9 (amended with `0 < cell_size` and `0 ≤ radius`): `query_radius`
returns exactly the indexed objects other than `exclude` whose Euclidean
distance to `(x, y)` is at most `radius` — none is missed whatever cell it
occupies, none out of range is returned — each paired with its (squared)
distance. -/
theorem C9_queryRadius_exact (g : SpatialHashGrid) (hcs : 0 < g.cell_size)
    (hwp : WellPlaced g) (x y radius : ℚ) (hr : 0 ≤ radius) (exclude : Option Obj) :
    (∀ o d, (o, d) ∈ queryRadius g x y radius exclude →
      Indexed g o ∧ some o ≠ exclude ∧ d = distSq x y o ∧
        distSq x y o ≤ radius * radius) ∧
    (∀ o, Indexed g o → some o ≠ exclude → distSq x y o ≤ radius * radius →
      (o, distSq x y o) ∈ queryRadius g x y radius exclude) :=
  ⟨fun o d hmem => queryRadius_sound g x y radius exclude o d hmem,
   fun o hin hne hdist => queryRadius_complete g hcs hwp x y radius hr exclude o hin hne hdist⟩

/-- A grid holding one object at `(3, 4)`. -/
def objWit : Obj := ⟨1, 3, 4⟩

def gridWit : SpatialHashGrid :=
  ⟨10, fun c => if c = (0, 0) then [objWit] else []⟩

theorem gridWit_wellPlaced : WellPlaced gridWit := by
  intro c o h
  by_cases hc : c = (0, 0)
  · subst hc
    simp [gridWit] at h
    subst h
    norm_num [getCell, gridWit, objWit, pyInt, Prod.ext_iff]
  · simp only [gridWit, if_neg hc, List.not_mem_nil] at h

/-- C9 witness: the amended theorem at the concrete grid `gridWit`, query
point `(0,0)`, radius `6`: the object at `(3,4)` (distance `5 ≤ 6`) is
returned, paired with its squared distance `25`. -/
theorem C9_queryRadius_exact_witness :
    (objWit, distSq 0 0 objWit) ∈ queryRadius gridWit 0 0 6 none :=
  (C9_queryRadius_exact gridWit (by norm_num [gridWit]) gridWit_wellPlaced 0 0 6
      (by norm_num) none).2 objWit ⟨(0, 0), by simp [gridWit]⟩ (by simp)
    (by norm_num [distSq, objWit])

/-! ### `cpp/jamfree/python/web/app.py` and `routing.py` — the web simulation

The simulation state held in `simulation_state` and the C++ `jamfree`
objects it manipulates.  The C++ classes (`Vehicle`, `Lane`, `Road`, `IDM`)
are not under `src/`; their state and the primitives the Python code calls
(`get_lane_position`, `add_vehicle`, `get_leader`, `calculate_acceleration`,
`update`) are modelled from the spec where noted.  The Python control flow
(`start_simulation`, `config`, `simulation_step` and its passes) is
translated from app.py line by line.

Python's global `random` module is modelled as a stream of naturals, one
value consumed per primitive call; `random.choice(seq)` picks index
`n % len(seq)`, `random.randint(a, b)` yields `a + n % (b - a + 1)`, and
`random.random()` yields a 53-bit fraction `(n % 2^53) / 2^53` (CPython's
`random()` produces exactly 53 random bits); `random.uniform(a, b)` is
`a + (b - a) * random()`. -/

/-- The global Mersenne-Twister state, abstracted to the stream of draws it
will produce.  An exhausted stream keeps yielding `0`. -/
structure Rng where
  stream : List ℕ
deriving DecidableEq, Repr

def Rng.next (r : Rng) : ℕ × Rng :=
  match r.stream with
  | [] => (0, ⟨[]⟩)
  | n :: rest => (n, ⟨rest⟩)

/-- `random.choice(seq)`: uniform index below `len(seq)`. -/
def rngChoice {α : Type} (seq : List α) (r : Rng) : Option α × Rng :=
  let (n, r') := r.next
  (seq.get? (n % seq.length), r')

/-- `random.randint(0, k)`: uniform integer in `[0, k]`. -/
def rngRandintZero (k : ℕ) (r : Rng) : ℕ × Rng :=
  let (n, r') := r.next
  (n % (k + 1), r')

/-- `random.uniform(0, hi)` = `0 + (hi - 0) * random()`. -/
def rngUniformZero (hi : ℚ) (r : Rng) : ℚ × Rng :=
  let (n, r') := r.next
  (hi * ((n % 2 ^ 53 : ℕ) : ℚ) / 2 ^ 53, r')

/-- A lane of the C++ road model: id, index within its road, length and
speed limit (`get_id`, `get_index`, `get_length`, `get_speed_limit`). -/
structure Lane where
  lane_id : ℕ
  index : ℕ
  length : ℚ
  speed_limit : ℚ
deriving DecidableEq, Repr

/-- A road: id, its lanes in index order, and the headings the routing code
reads through `get_heading_at(L)` / `get_heading_at(0)`.  Headings are kept
in units of π (a heading `h` stands for `h·π` radians), so the angle
arithmetic of `routing.py` stays rational. -/
structure Road where
  rid : ℕ
  lanes : List Lane
  length : ℚ
  heading_start : ℚ
  heading_end : ℚ
deriving DecidableEq, Repr

/-- The loaded road network together with the routing engine built from it.
`sp` is `RoutingEngine.get_shortest_path` (routing.py lines 62-111), an A*
search over the road graph: a pure function of the network, carried here as
an opaque component because no claim depends on the paths it returns.
`geom_xy`/`geom_heading` model the C++ lane geometry behind
`Vehicle.get_position`/`get_heading` (lane id and `s` to world coordinates /
heading), and `m2ll` models `OSMParser.meters_to_lat_lon` at the network's
centre: all are fixed pure functions of the loaded network, opaque here
because no claim depends on their values. -/
structure Network where
  roads : List Road
  sp : ℕ → ℕ → Option (List ℕ)
  geom_xy : ℕ → ℚ → ℚ × ℚ
  geom_heading : ℕ → ℚ → ℚ
  m2ll : ℚ × ℚ → ℚ × ℚ

def Network.roadIds (net : Network) : List ℕ := net.roads.map Road.rid

def findRoad (net : Network) (r : ℕ) : Option Road :=
  net.roads.find? (fun rd => rd.rid = r)

def findLane (net : Network) (l : ℕ) : Option Lane :=
  (net.roads.flatMap Road.lanes).find? (fun ln => ln.lane_id = l)

/-- A vehicle's dynamic state: id, current lane reference (`none` models a
null reference), longitudinal position `s`, speed `v`, and length.  The C++
`Vehicle` class is not under src/; its state is modelled from the spec's
data model (§3 Vehicle). -/
structure Vehicle where
  vid : ℕ
  lane : Option ℕ
  s : ℚ
  v : ℚ
  len : ℚ
deriving DecidableEq, Repr

/-- A per-vehicle route as stored in `simulation_state['vehicle_routes']`
(app.py lines 559-563). -/
structure Route where
  path : List ℕ
  current_index : ℕ
  destination : ℕ
deriving DecidableEq, Repr

/-- The IDM car-following model's parameters (C++ `jamfree.IDM`, not under
src/; fields from the constructor used at app.py lines 548-555).
`twoSqrtAB` carries the precomputed constant `2·√(max_accel·comfortable_decel)`
of the desired-gap formula (irrational in general, hence a parameter), and
`hard_decel` the lower clamp bound `b_hard ≥ b` of spec §4.4. -/
structure IDM where
  desired_speed : ℚ
  time_headway : ℚ
  min_gap : ℚ
  max_accel : ℚ
  comfortable_decel : ℚ
  accel_exponent : ℕ
  twoSqrtAB : ℚ
  hard_decel : ℚ
deriving DecidableEq, Repr

/-- The spec's ε: the minimum gap substituted to avoid division by zero
(§4.4; the numeric value is not in src/). -/
def gapEps : ℚ := 1 / 10

/-- Modelled from the spec: `IDM.calculate_acceleration` (C++, not under
src/), per spec §4.4 — `s★ = s₀ + max(0, v·T + v·(v − v_ℓ)/(2√(a_max·b)))`,
`a = a_max·(1 − (v/v*)^δ − (s★/g)²)` with `g = max(g, ε)`, the last term
dropped when there is no leader, and the result clamped to
`[−b_hard, a_max]`. -/
def idmAccel (m : IDM) (ego : Vehicle) (leader : Option Vehicle) : ℚ :=
  let free := 1 - (ego.v / m.desired_speed) ^ m.accel_exponent
  let raw :=
    match leader with
    | none => m.max_accel * free
    | some l =>
        let g := max (l.s - ego.s - l.len) gapEps
        let sStar := m.min_gap +
          max 0 (ego.v * m.time_headway + ego.v * (ego.v - l.v) / m.twoSqrtAB)
        m.max_accel * (free - (sStar / g) ^ 2)
  max (-m.hard_decel) (min raw m.max_accel)

/-- The fixed time step of `simulation_step` (app.py line 598). -/
def dtStep : ℚ := 1 / 10

/-- Modelled from the spec: `Vehicle.update(dt, acc)` (C++, not under src/),
per spec §4.6 — `v ← max(0, v + a·dt)`, `s ← s + v·dt + ½·a·dt²`. -/
def integrate (veh : Vehicle) (a dt : ℚ) : Vehicle :=
  { veh with v := max 0 (veh.v + a * dt), s := veh.s + veh.v * dt + a * dt ^ 2 / 2 }

/-- The mutable simulation state of app.py's `simulation_state`, restricted
to the fields the modelled code paths read and write.  `veh` is the store
of vehicle objects keyed by id; `laneVehicles` the per-lane vehicle lists
maintained by `Lane.add_vehicle`/`remove_vehicle` (C++, not under src/;
modelled from the spec: add appends, remove deletes the reference);
`routes` is `simulation_state['vehicle_routes']` and `models` is
`simulation_state['vehicle_models']`.  The modelled configuration is the
baseline path: spatial index off, GPU off, adaptive simulator off,
sequential updates. -/
structure SimState where
  net : Network
  vehicles : List ℕ
  veh : ℕ → Vehicle
  laneVehicles : ℕ → List ℕ
  routes : ℕ → Option Route
  models : ℕ → Option IDM
  default_idm : IDM
  stepCount : ℕ
  rng : Rng

def setVeh (st : SimState) (vid : ℕ) (w : Vehicle) : SimState :=
  { st with veh := fun j => if j = vid then w else st.veh j }

/-- `lane.remove_vehicle(v); target.add_vehicle(v); v.set_current_lane(target)`:
delete from the source lane's list, append to the target's, update the
back-reference. -/
def moveVehicle (st : SimState) (vid fromL toL : ℕ) : SimState :=
  { st with
    laneVehicles := fun l =>
      let removed := if l = fromL then (st.laneVehicles l).erase vid else st.laneVehicles l
      if l = toL then removed ++ [vid] else removed,
    veh := fun j => if j = vid then { st.veh j with lane := some toL } else st.veh j }

/-- `vehicle_routes[v_id] = {...}`. -/
def setRoute (st : SimState) (vid : ℕ) (r : Route) : SimState :=
  { st with routes := fun j => if j = vid then some r else st.routes j }

/-- `vehicle_models[v_id] = idm`. -/
def setModel (st : SimState) (vid : ℕ) (m : IDM) : SimState :=
  { st with models := fun j => if j = vid then some m else st.models j }

/-- `lane.add_vehicle(vehicle)`: append to the lane's vehicle list. -/
def laneAppend (st : SimState) (lid vid : ℕ) : SimState :=
  { st with laneVehicles := fun l =>
      if l = lid then st.laneVehicles l ++ [vid] else st.laneVehicles l }

/-- `if v_id in vehicle_models: vehicle_models[v_id].set_desired_speed(lim)`. -/
def setDesiredSpeed (st : SimState) (vid : ℕ) (lim : ℚ) : SimState :=
  { st with models := fun j =>
      if j = vid then (st.models j).map (fun m => { m with desired_speed := lim })
      else st.models j }

/-- Modelled from the spec: `Lane.get_leader(vehicle)` (C++, not under src/),
per spec §4.3 — the vehicle of the same lane with the smallest `s` strictly
greater than the ego's, ties broken by vehicle id. -/
def leaderFind (st : SimState) (lid vid : ℕ) : Option ℕ :=
  let s0 := (st.veh vid).s
  let cands := (st.laneVehicles lid).filter
    (fun j => decide (j ≠ vid ∧ s0 < (st.veh j).s))
  cands.foldl
    (fun best j =>
      match best with
      | none => some j
      | some b =>
          if (st.veh j).s < (st.veh b).s ∨ ((st.veh j).s = (st.veh b).s ∧ j < b)
          then some j else some b)
    none

/-- One entry of the `vehicles_data` list built at app.py lines 786-794:
the dict `{id, x, y, lat, lon, angle, speed}`, with `speed` converted to
km/h (`get_speed() * 3.6`). -/
structure VizRec where
  rid : ℕ
  x : ℚ
  y : ℚ
  lat : ℚ
  lon : ℚ
  angle : ℚ
  speed : ℚ
deriving DecidableEq, Repr

def mkVizRec (net : Network) (lid : ℕ) (w : Vehicle) : VizRec :=
  let p := net.geom_xy lid w.s
  let g := net.m2ll p
  { rid := w.vid, x := p.1, y := p.2, lat := g.1, lon := g.2,
    angle := net.geom_heading lid w.s, speed := w.v * (18 / 5) }

/-- `update_vehicle` (app.py lines 757-797) on the sequential baseline path:
look the leader up on the live lane, compute the IDM acceleration, and
*mutate the vehicle's live state in place* (`vehicle.update(dt, acc)`),
then build the visualization record.  `raises vid` models the body raising
an exception (e.g. inside a C++ call): the handler at lines 795-797 catches
every exception and returns `None`; `None` is also returned by the
`if not lane` guard at lines 760-762. -/
def updateVehicleOne (raises : ℕ → Bool) (st : SimState) (vid : ℕ) :
    SimState × Option VizRec :=
  if raises vid then (st, none)
  else
    match (st.veh vid).lane.bind (findLane st.net) with
    | none => (st, none)
    | some lane =>
        let leader := (leaderFind st lane.lane_id vid).map st.veh
        let idm := (st.models vid).getD st.default_idm
        let acc := idmAccel idm (st.veh vid) leader
        let w := integrate (st.veh vid) acc dtStep
        (setVeh st vid w, some (mkVizRec st.net lane.lane_id w))

/-- The sequential update loop (app.py lines 808-812): each vehicle is
updated in the order of `simulation_state['vehicles']`, against the state
already mutated by the vehicles before it; failing updates are skipped. -/
def updateVehiclesPass (raises : ℕ → Bool) (st : SimState) : SimState × List VizRec :=
  st.vehicles.foldl
    (fun acc vid =>
      let r := updateVehicleOne raises acc.1 vid
      (r.1, acc.2 ++ r.2.toList))
    (st, [])

/-- The update pass as the spec's scratch-buffer semantics prescribes it:
every vehicle's perceive/decide reads the pre-integration state `st`;
only the integrations accumulate.  (This definition follows the spec's
words, for comparison with `updateVehiclesPass`, which follows the code.) -/
def updateVehiclesSnapshot (raises : ℕ → Bool) (st : SimState) : SimState :=
  st.vehicles.foldl
    (fun acc vid =>
      if raises vid then acc
      else
        match (st.veh vid).lane.bind (findLane st.net) with
        | none => acc
        | some lane =>
            let leader := (leaderFind st lane.lane_id vid).map st.veh
            let idm := (st.models vid).getD st.default_idm
            let w := integrate (st.veh vid) (idmAccel idm (st.veh vid) leader) dtStep
            setVeh acc vid w)
    st

/-- The `while` normalization of `get_target_lane_index` (routing.py lines
150-152), in units of π: the closed form subtracts or adds twice the number
of iterations the loop performs, landing in `(-1, 1]` resp. `[-1, 1)`. -/
def normalizeAngle (d : ℚ) : ℚ :=
  if 1 < d then d - 2 * ⌈(d - 1) / 2⌉
  else if d < -1 then d + 2 * ⌈(-1 - d) / 2⌉
  else d

/-- `RoutingEngine.get_target_lane_index` (routing.py lines 133-172);
headings are in units of π, so the ±30° thresholds are ±1/6. -/
def targetLaneIndex (net : Network) (curId nextId : ℕ) (curIdx : ℕ) : ℕ :=
  match findRoad net curId, findRoad net nextId with
  | some cur, some nxt =>
      let diff := normalizeAngle (nxt.heading_start - cur.heading_end)
      let n := cur.lanes.length
      if n ≤ 1 then 0
      else if 1 / 6 < diff then n - 1
      else if diff < -(1 / 6) then 0
      else min curIdx (n - 1)
  | _, _ => curIdx

/-- The routing lane-change handling of one vehicle (app.py lines 619-654):
within 100 m of the road end, compute the target lane for the next road of
the route; within 60 m, *immediately* remove the vehicle from its lane, add
it to the target lane and repoint it there, keeping its position. -/
def laneChangeOne (st : SimState) (vid : ℕ) : SimState :=
  match st.routes vid with
  | none => st
  | some route =>
      match (st.veh vid).lane.bind (findLane st.net) with
      | none => st
      | some lane =>
          let dist := lane.length - (st.veh vid).s
          if dist < 100 ∧ route.current_index + 1 < route.path.length then
            let curRoadId := route.path.getD route.current_index 0
            let nextRoadId := route.path.getD (route.current_index + 1) 0
            let tgt := targetLaneIndex st.net curRoadId nextRoadId lane.index
            if tgt ≠ lane.index then
              if dist < 60 then
                match findRoad st.net curRoadId with
                | none => st
                | some curRoad =>
                    match curRoad.lanes.get? tgt with
                    | none => st
                    | some tgtLane => moveVehicle st vid lane.lane_id tgtLane.lane_id
              else st
            else st
          else st

/-- The pre-update routing pass (app.py lines 617-654). -/
def mandatoryLaneChangePass (st : SimState) : SimState :=
  st.vehicles.foldl laneChangeOne st

/-- Lines 885-888 and 853-856: halt the vehicle at the lane end. -/
def clampStop (st : SimState) (vid : ℕ) (lane : Lane) : SimState :=
  setVeh st vid { st.veh vid with s := lane.length, v := 0 }

/-- `RoutingEngine.get_random_od` (routing.py lines 113-131): up to ten
attempts, each drawing two `random.choice` values over the road ids and
keeping the pair when a shortest path exists. -/
def getRandomODAux (net : Network) : ℕ → Rng → Option (ℕ × ℕ) × Rng
  | 0, r => (none, r)
  | (n + 1), r =>
      let c1 := rngChoice net.roadIds r
      let c2 := rngChoice net.roadIds c1.2
      match c1.1, c2.1 with
      | some s, some e =>
          if s = e then getRandomODAux net n c2.2
          else
            match net.sp s e with
            | some _ => (some (s, e), c2.2)
            | none => getRandomODAux net n c2.2
      | _, _ => getRandomODAux net n c2.2

def getRandomOD (net : Network) (r : Rng) : Option (ℕ × ℕ) × Rng :=
  if net.roadIds.isEmpty then (none, r) else getRandomODAux net 10 r

/-- The road-transition handling of one vehicle (app.py lines 816-888):
when its position strictly exceeds the lane length, either move it to the
next road of its route *at position 0*, or — route exhausted — respawn it at
a random new origin, or — no route resp. next road unknown — halt it at the
lane end with speed 0.  No branch removes the vehicle from the simulation. -/
def transitionOne (st : SimState) (vid : ℕ) : SimState :=
  match (st.veh vid).lane.bind (findLane st.net) with
  | none => st
  | some lane =>
      if lane.length < (st.veh vid).s then
        match st.routes vid with
        | some route =>
            if route.current_index + 1 < route.path.length then
              let nextRoadId := route.path.getD (route.current_index + 1) 0
              match findRoad st.net nextRoadId with
              | some nextRoad =>
                  match nextRoad.lanes.get? (min lane.index (nextRoad.lanes.length - 1)) with
                  | none => st
                  | some nextLane =>
                      let st1 := moveVehicle st vid lane.lane_id nextLane.lane_id
                      let st2 := setVeh st1 vid { st1.veh vid with s := 0 }
                      let st3 := setRoute st2 vid
                        { route with current_index := route.current_index + 1 }
                      setDesiredSpeed st3 vid nextLane.speed_limit
              | none => clampStop st vid lane
            else
              let odr := getRandomOD st.net st.rng
              let st0 := { st with rng := odr.2 }
              match odr.1 with
              | none => st0
              | some (sId, eId) =>
                  match st0.net.sp sId eId with
                  | none => st0
                  | some newPath =>
                      match (findRoad st0.net sId).bind (fun rd => rd.lanes.get? 0) with
                      | none => st0
                      | some newLane =>
                          let st1 := moveVehicle st0 vid lane.lane_id newLane.lane_id
                          let st2 := setVeh st1 vid
                            { st1.veh vid with s := 0, v := newLane.speed_limit / 2 }
                          let st3 := setRoute st2 vid ⟨newPath, 0, eId⟩
                          setDesiredSpeed st3 vid newLane.speed_limit
        | none => clampStop st vid lane
      else st

/-- The road-transition pass (app.py lines 814-888). -/
def roadTransitionPass (st : SimState) : SimState :=
  st.vehicles.foldl transitionOne st

/-- Whether a vehicle triggers the transition condition of line 818. -/
def crossesB (st : SimState) (vid : ℕ) : Bool :=
  match (st.veh vid).lane.bind (findLane st.net) with
  | none => false
  | some lane => decide (lane.length < (st.veh vid).s)

/-! #### Projection lemmas for the state transformers. -/

section
variable (st : SimState) (v : ℕ) (w : Vehicle) (r : Route) (m : IDM) (lim : ℚ)
variable (fromL toL lid j l : ℕ) (lane : Lane)

@[simp] theorem setVeh_net : (setVeh st v w).net = st.net := rfl

@[simp] theorem setVeh_vehicles : (setVeh st v w).vehicles = st.vehicles := rfl

@[simp] theorem setVeh_laneVehicles : (setVeh st v w).laneVehicles = st.laneVehicles := rfl

@[simp] theorem setVeh_routes : (setVeh st v w).routes = st.routes := rfl

@[simp] theorem setVeh_models : (setVeh st v w).models = st.models := rfl

@[simp] theorem setVeh_default_idm : (setVeh st v w).default_idm = st.default_idm := rfl

@[simp] theorem setVeh_stepCount : (setVeh st v w).stepCount = st.stepCount := rfl

@[simp] theorem setVeh_rng : (setVeh st v w).rng = st.rng := rfl

@[simp] theorem setVeh_veh :
    (setVeh st v w).veh j = if j = v then w else st.veh j := rfl

@[simp] theorem moveVehicle_net : (moveVehicle st v fromL toL).net = st.net := rfl

@[simp] theorem moveVehicle_vehicles :
    (moveVehicle st v fromL toL).vehicles = st.vehicles := rfl

@[simp] theorem moveVehicle_routes :
    (moveVehicle st v fromL toL).routes = st.routes := rfl

@[simp] theorem moveVehicle_models :
    (moveVehicle st v fromL toL).models = st.models := rfl

@[simp] theorem moveVehicle_default_idm :
    (moveVehicle st v fromL toL).default_idm = st.default_idm := rfl

@[simp] theorem moveVehicle_stepCount :
    (moveVehicle st v fromL toL).stepCount = st.stepCount := rfl

@[simp] theorem moveVehicle_rng : (moveVehicle st v fromL toL).rng = st.rng := rfl

@[simp] theorem moveVehicle_veh :
    (moveVehicle st v fromL toL).veh j =
      if j = v then { st.veh j with lane := some toL } else st.veh j := rfl

@[simp] theorem moveVehicle_laneVehicles :
    (moveVehicle st v fromL toL).laneVehicles l =
      (if l = toL then
        (if l = fromL then (st.laneVehicles l).erase v else st.laneVehicles l) ++ [v]
      else if l = fromL then (st.laneVehicles l).erase v else st.laneVehicles l) := rfl

@[simp] theorem setRoute_net : (setRoute st v r).net = st.net := rfl

@[simp] theorem setRoute_vehicles : (setRoute st v r).vehicles = st.vehicles := rfl

@[simp] theorem setRoute_laneVehicles :
    (setRoute st v r).laneVehicles = st.laneVehicles := rfl

@[simp] theorem setRoute_veh : (setRoute st v r).veh = st.veh := rfl

@[simp] theorem setRoute_models : (setRoute st v r).models = st.models := rfl

@[simp] theorem setRoute_default_idm :
    (setRoute st v r).default_idm = st.default_idm := rfl

@[simp] theorem setRoute_stepCount : (setRoute st v r).stepCount = st.stepCount := rfl

@[simp] theorem setRoute_rng : (setRoute st v r).rng = st.rng := rfl

@[simp] theorem setRoute_routes :
    (setRoute st v r).routes j = if j = v then some r else st.routes j := rfl

@[simp] theorem setModel_net : (setModel st v m).net = st.net := rfl

@[simp] theorem setModel_vehicles : (setModel st v m).vehicles = st.vehicles := rfl

@[simp] theorem setModel_laneVehicles :
    (setModel st v m).laneVehicles = st.laneVehicles := rfl

@[simp] theorem setModel_veh : (setModel st v m).veh = st.veh := rfl

@[simp] theorem setModel_routes : (setModel st v m).routes = st.routes := rfl

@[simp] theorem setModel_default_idm :
    (setModel st v m).default_idm = st.default_idm := rfl

@[simp] theorem setModel_stepCount : (setModel st v m).stepCount = st.stepCount := rfl

@[simp] theorem setModel_rng : (setModel st v m).rng = st.rng := rfl

@[simp] theorem setModel_models :
    (setModel st v m).models j = if j = v then some m else st.models j := rfl

@[simp] theorem setDesiredSpeed_net : (setDesiredSpeed st v lim).net = st.net := rfl

@[simp] theorem setDesiredSpeed_vehicles :
    (setDesiredSpeed st v lim).vehicles = st.vehicles := rfl

@[simp] theorem setDesiredSpeed_laneVehicles :
    (setDesiredSpeed st v lim).laneVehicles = st.laneVehicles := rfl

@[simp] theorem setDesiredSpeed_veh : (setDesiredSpeed st v lim).veh = st.veh := rfl

@[simp] theorem setDesiredSpeed_routes :
    (setDesiredSpeed st v lim).routes = st.routes := rfl

@[simp] theorem setDesiredSpeed_default_idm :
    (setDesiredSpeed st v lim).default_idm = st.default_idm := rfl

@[simp] theorem setDesiredSpeed_stepCount :
    (setDesiredSpeed st v lim).stepCount = st.stepCount := rfl

@[simp] theorem setDesiredSpeed_rng : (setDesiredSpeed st v lim).rng = st.rng := rfl

@[simp] theorem setDesiredSpeed_models :
    (setDesiredSpeed st v lim).models j =
      (if j = v then (st.models j).map (fun mm => { mm with desired_speed := lim })
      else st.models j) := rfl

@[simp] theorem laneAppend_net : (laneAppend st lid v).net = st.net := rfl

@[simp] theorem laneAppend_vehicles : (laneAppend st lid v).vehicles = st.vehicles := rfl

@[simp] theorem laneAppend_veh : (laneAppend st lid v).veh = st.veh := rfl

@[simp] theorem laneAppend_routes : (laneAppend st lid v).routes = st.routes := rfl

@[simp] theorem laneAppend_models : (laneAppend st lid v).models = st.models := rfl

@[simp] theorem laneAppend_default_idm :
    (laneAppend st lid v).default_idm = st.default_idm := rfl

@[simp] theorem laneAppend_stepCount :
    (laneAppend st lid v).stepCount = st.stepCount := rfl

@[simp] theorem laneAppend_rng : (laneAppend st lid v).rng = st.rng := rfl

@[simp] theorem laneAppend_laneVehicles :
    (laneAppend st lid v).laneVehicles l =
      (if l = lid then st.laneVehicles l ++ [v] else st.laneVehicles l) := rfl

@[simp] theorem clampStop_eq (stx : SimState) (vx : ℕ) (lanex : Lane) :
    clampStop stx vx lanex =
      setVeh stx vx { stx.veh vx with s := lanex.length, v := 0 } := rfl

end

/-! #### Frame lemmas: none of the per-vehicle passes touches the global
vehicle list or the step counter. -/

theorem transitionOne_frame (st : SimState) (vid : ℕ) :
    (transitionOne st vid).vehicles = st.vehicles ∧
    (transitionOne st vid).stepCount = st.stepCount := by
  unfold transitionOne
  rcases h1 : (st.veh vid).lane.bind (findLane st.net) with _ | lane
  · exact ⟨rfl, rfl⟩
  · dsimp only
    by_cases h2 : lane.length < (st.veh vid).s
    · rw [if_pos h2]
      rcases h3 : st.routes vid with _ | route
      · simp
      · dsimp only
        by_cases h4 : route.current_index + 1 < route.path.length
        · rw [if_pos h4]
          rcases h5 : findRoad st.net (route.path.getD (route.current_index + 1) 0)
            with _ | nextRoad
          · simp
          · dsimp only
            rcases h6 : nextRoad.lanes.get? (min lane.index (nextRoad.lanes.length - 1))
              with _ | nextLane
            · exact ⟨rfl, rfl⟩
            · simp
        · rw [if_neg h4]
          try dsimp only
          rcases h7 : (getRandomOD st.net st.rng).1 with _ | ⟨sId, eId⟩
          · exact ⟨rfl, rfl⟩
          · dsimp only
            rcases h8 : st.net.sp sId eId with _ | newPath
            · exact ⟨rfl, rfl⟩
            · dsimp only
              rcases h9 : (findRoad st.net sId).bind (fun rd => rd.lanes.get? 0)
                with _ | newLane
              · exact ⟨rfl, rfl⟩
              · simp
    · rw [if_neg h2]
      exact ⟨rfl, rfl⟩

theorem laneChangeOne_frame (st : SimState) (vid : ℕ) :
    (laneChangeOne st vid).vehicles = st.vehicles ∧
    (laneChangeOne st vid).stepCount = st.stepCount := by
  unfold laneChangeOne
  rcases h1 : st.routes vid with _ | route
  · exact ⟨rfl, rfl⟩
  · dsimp only
    rcases h2 : (st.veh vid).lane.bind (findLane st.net) with _ | lane
    · exact ⟨rfl, rfl⟩
    · dsimp only
      by_cases h3 : lane.length - (st.veh vid).s < 100 ∧
          route.current_index + 1 < route.path.length
      · rw [if_pos h3]
        by_cases h4 : targetLaneIndex st.net (route.path.getD route.current_index 0)
            (route.path.getD (route.current_index + 1) 0) lane.index ≠ lane.index
        · rw [if_pos h4]
          by_cases h5 : lane.length - (st.veh vid).s < 60
          · rw [if_pos h5]
            rcases h6 : findRoad st.net (route.path.getD route.current_index 0)
              with _ | curRoad
            · exact ⟨rfl, rfl⟩
            · dsimp only
              rcases h7 : curRoad.lanes.get? (targetLaneIndex st.net
                  (route.path.getD route.current_index 0)
                  (route.path.getD (route.current_index + 1) 0) lane.index)
                with _ | tgtLane
              · exact ⟨rfl, rfl⟩
              · simp
          · rw [if_neg h5]
            exact ⟨rfl, rfl⟩
        · rw [if_neg h4]
          exact ⟨rfl, rfl⟩
      · rw [if_neg h3]
        exact ⟨rfl, rfl⟩

theorem updateVehicleOne_frame (raises : ℕ → Bool) (st : SimState) (vid : ℕ) :
    (updateVehicleOne raises st vid).1.vehicles = st.vehicles ∧
    (updateVehicleOne raises st vid).1.stepCount = st.stepCount ∧
    (updateVehicleOne raises st vid).1.net = st.net ∧
    (updateVehicleOne raises st vid).1.laneVehicles = st.laneVehicles ∧
    (updateVehicleOne raises st vid).1.routes = st.routes ∧
    (updateVehicleOne raises st vid).1.models = st.models ∧
    (updateVehicleOne raises st vid).1.default_idm = st.default_idm ∧
    (∀ j, j ≠ vid → (updateVehicleOne raises st vid).1.veh j = st.veh j) := by
  unfold updateVehicleOne
  split_ifs
  · exact ⟨rfl, rfl, rfl, rfl, rfl, rfl, rfl, fun _ _ => rfl⟩
  · rcases h : (st.veh vid).lane.bind (findLane st.net) with _ | lane
    · exact ⟨rfl, rfl, rfl, rfl, rfl, rfl, rfl, fun _ _ => rfl⟩
    · dsimp only
      refine ⟨rfl, rfl, rfl, rfl, rfl, rfl, rfl, ?_⟩
      intro j hj
      simp [hj]

/-- Characterization of a successful `update_vehicle` call. -/
theorem updateVehicleOne_some (raises : ℕ → Bool) (st : SimState) (vid : ℕ)
    (lane : Lane) (hr : raises vid = false)
    (hlane : (st.veh vid).lane.bind (findLane st.net) = some lane) :
    (updateVehicleOne raises st vid).1 =
      setVeh st vid (integrate (st.veh vid)
        (idmAccel ((st.models vid).getD st.default_idm) (st.veh vid)
          ((leaderFind st lane.lane_id vid).map st.veh)) dtStep) := by
  unfold updateVehicleOne
  rw [if_neg (by simp [hr]), hlane]

theorem mandatoryLaneChangePass_stepCount (st : SimState) :
    (mandatoryLaneChangePass st).stepCount = st.stepCount := by
  unfold mandatoryLaneChangePass
  generalize st.vehicles = l
  induction l generalizing st with
  | nil => rfl
  | cons a tl ih =>
      rw [List.foldl_cons, ih (laneChangeOne st a), (laneChangeOne_frame st a).2]

theorem roadTransitionPass_stepCount (st : SimState) :
    (roadTransitionPass st).stepCount = st.stepCount := by
  unfold roadTransitionPass
  generalize st.vehicles = l
  induction l generalizing st with
  | nil => rfl
  | cons a tl ih =>
      rw [List.foldl_cons, ih (transitionOne st a), (transitionOne_frame st a).2]

theorem updateVehiclesPass_stepCount (raises : ℕ → Bool) (st : SimState) :
    (updateVehiclesPass raises st).1.stepCount = st.stepCount := by
  unfold updateVehiclesPass
  suffices h : ∀ (l : List ℕ) (acc : SimState × List VizRec),
      ((l.foldl (fun acc vid =>
        let r := updateVehicleOne raises acc.1 vid
        (r.1, acc.2 ++ r.2.toList)) acc).1).stepCount = acc.1.stepCount by
    exact h st.vehicles (st, [])
  intro l
  induction l with
  | nil => intro acc; rfl
  | cons a tl ih =>
      intro acc
      rw [List.foldl_cons, ih]
      exact (updateVehicleOne_frame raises acc.1 a).2.1

/-- Python `round(q, 2)`: round half to even at two decimals. -/
def halfEvenRound (q : ℚ) : ℤ :=
  if q - ⌊q⌋ < 1 / 2 then ⌊q⌋
  else if 1 / 2 < q - ⌊q⌋ then ⌊q⌋ + 1
  else if ⌊q⌋ % 2 = 0 then ⌊q⌋ else ⌊q⌋ + 1

def pyRound2 (q : ℚ) : ℚ := (halfEvenRound (q * 100) : ℚ) / 100

/-- The JSON body returned by `simulation_step` (app.py lines 918-936),
restricted to the fields the claims mention: the step counter, the vehicle
records, and the performance numbers derived from the measured wall-clock
duration of the step. -/
structure StepResponse where
  step : ℕ
  vehicles : List VizRec
  update_time_ms : ℚ
  vehicles_count : ℕ
  speedup_factor : ℚ
deriving DecidableEq, Repr

/-- One whole `simulation_step` (app.py lines 589-936) on the baseline path
(no GPU, no adaptive simulator, spatial index off, sequential updates):
routing lane-change pre-pass, per-vehicle updates, road transitions, step
counter increment, and the response.  `stepTimeMs` is the measured
wall-clock duration `(time.time() - step_start) * 1000`, an input the
machine's clock provides. -/
def simulationStepFull (raises : ℕ → Bool) (st : SimState) (stepTimeMs : ℚ) :
    SimState × StepResponse :=
  let st1 := mandatoryLaneChangePass st
  let n := st1.vehicles.length
  let upd := updateVehiclesPass raises st1
  let st3 := roadTransitionPass upd.1
  let st4 := { st3 with stepCount := st3.stepCount + 1 }
  let speedup := pyRound2 ((n : ℚ) * 1 / max stepTimeMs (1 / 10))
  (st4,
   { step := st4.stepCount, vehicles := upd.2,
     update_time_ms := pyRound2 stepTimeMs, vehicles_count := n,
     speedup_factor := speedup })

/-! ### Configuration (`/api/config`, app.py lines 80-88) and the adaptive
configuration built in `start_simulation` (lines 446-498). -/

/-- The configuration dict `simulation_state['config']`, restricted to the
keys the modelled code reads. -/
structure WebConfig where
  num_vehicles : ℕ
  desired_speed : ℚ
  time_headway : ℚ
  politeness : ℚ
  use_idm_lookup : Bool
  use_spatial_index : Bool
  use_multithreading : Bool
  use_adaptive_hybrid : Bool
  adaptive_threshold : ℤ
deriving DecidableEq, Repr

/-- The defaults of app.py lines 41-52. -/
def defaultWebConfig : WebConfig :=
  { num_vehicles := 200, desired_speed := 120, time_headway := 3 / 2,
    politeness := 3 / 10, use_idm_lookup := true, use_spatial_index := true,
    use_multithreading := true, use_adaptive_hybrid := true,
    adaptive_threshold := 50 }

/-- A POSTed configuration update: the keys present in `request.json`. -/
structure ConfigPatch where
  num_vehicles : Option ℕ := none
  desired_speed : Option ℚ := none
  time_headway : Option ℚ := none
  politeness : Option ℚ := none
  use_idm_lookup : Option Bool := none
  use_spatial_index : Option Bool := none
  use_multithreading : Option Bool := none
  use_adaptive_hybrid : Option Bool := none
  adaptive_threshold : Option ℤ := none
deriving DecidableEq, Repr

inductive ApiStatus where
  | ok
  | clientError
deriving DecidableEq, Repr

/-- `simulation_state['config'].update(data)`: present keys overwrite. -/
def applyPatch (c : WebConfig) (p : ConfigPatch) : WebConfig :=
  { num_vehicles := p.num_vehicles.getD c.num_vehicles,
    desired_speed := p.desired_speed.getD c.desired_speed,
    time_headway := p.time_headway.getD c.time_headway,
    politeness := p.politeness.getD c.politeness,
    use_idm_lookup := p.use_idm_lookup.getD c.use_idm_lookup,
    use_spatial_index := p.use_spatial_index.getD c.use_spatial_index,
    use_multithreading := p.use_multithreading.getD c.use_multithreading,
    use_adaptive_hybrid := p.use_adaptive_hybrid.getD c.use_adaptive_hybrid,
    adaptive_threshold := p.adaptive_threshold.getD c.adaptive_threshold }

/-- The `POST /api/config` handler (app.py lines 80-88): merge the posted
keys into the stored configuration and answer `{'status': 'ok'}`.  No key is
validated and nothing is rejected. -/
def configPost (c : WebConfig) (p : ConfigPatch) : WebConfig × ApiStatus :=
  (applyPatch c p, ApiStatus.ok)

/-- `jamfree.AdaptiveSimulatorConfig` as filled in at app.py lines 454-462. -/
structure AdaptiveSimulatorConfig where
  micro_to_macro_density : ℚ
  macro_to_micro_density : ℚ
  micro_to_macro_count : ℤ
  macro_to_micro_count : ℤ
  macro_num_cells : ℕ
  hysteresis_factor : ℚ
  force_micro_intersections : Bool
  force_micro_ramps : Bool
deriving DecidableEq, Repr

/-- app.py lines 448, 454-462: the adaptive configuration built from the
stored `adaptive_threshold`: densities `0.08`/`0.04`, counts `threshold` and
`int(threshold * 0.4)` (Python `int()` truncates toward zero). -/
def buildAdaptiveConfig (threshold : ℤ) : AdaptiveSimulatorConfig :=
  { micro_to_macro_density := 2 / 25, macro_to_micro_density := 1 / 25,
    micro_to_macro_count := threshold,
    macro_to_micro_count := pyInt ((threshold : ℚ) * (2 / 5)),
    macro_num_cells := 50, hysteresis_factor := 6 / 5,
    force_micro_intersections := true, force_micro_ramps := true }

/-! ### Vehicle placement in `start_simulation` (app.py lines 500-581). -/

/-- Modelled from the spec: the default C++ vehicle length (the `Vehicle`
class is not under src/; `engine_manager.py` line 136 uses `length = 5.0`). -/
def vehicleLen : ℚ := 5

/-- Modelled from the spec: the IDM's precomputed `2·√(a_max·b)` of §4.4
(`2√1.5` for the parameters of app.py lines 548-555, irrational; carried as
a fixed rational model constant — no claim depends on its value) and the
clamp bound `b_hard ≥ b`. -/
def idmSqrtConst : ℚ := 49 / 20

def idmHardDecel : ℚ := 4

/-- The per-vehicle IDM created at app.py lines 548-555. -/
def mkVehicleIDM (cfg : WebConfig) (limit : ℚ) : IDM :=
  { desired_speed := limit, time_headway := cfg.time_headway, min_gap := 2,
    max_accel := 1, comfortable_decel := 3 / 2, accel_exponent := 4,
    twoSqrtAB := idmSqrtConst, hard_decel := idmHardDecel }

/-- The default IDM created at app.py lines 428-431 (`desired_speed` is the
configured km/h value divided by 3.6; the remaining parameters take the C++
defaults, not under src/ — modelled as the constants of lines 548-555). -/
def defaultIDM (cfg : WebConfig) : IDM :=
  { desired_speed := cfg.desired_speed * 5 / 18, time_headway := cfg.time_headway,
    min_gap := 2, max_accel := 1, comfortable_decel := 3 / 2, accel_exponent := 4,
    twoSqrtAB := idmSqrtConst, hard_decel := idmHardDecel }

/-- One iteration of the placement loop (app.py lines 515-578): draw a
random origin/destination pair, a random lane index on the origin road, a
random position in `[0, min(50, L))` and a random speed in
`[0, 0.8·speed_limit)`, then create the vehicle, its IDM model and route,
and add it to the lane's list and to the global vehicle list. -/
def placeLoopBody (cfg : WebConfig) (net : Network) (st : SimState) (i : ℕ) : SimState :=
  let odr := getRandomOD net st.rng
  let st := { st with rng := odr.2 }
  match odr.1 with
  | none => st
  | some (sId, eId) =>
      match net.sp sId eId with
      | none => st
      | some path =>
          match findRoad net sId with
          | none => st
          | some road =>
              if 0 < road.lanes.length then
                let li := rngRandintZero (road.lanes.length - 1) st.rng
                let st := { st with rng := li.2 }
                match road.lanes.get? li.1 with
                | none => st
                | some lane =>
                    let posr := rngUniformZero (min 50 road.length) st.rng
                    let st := { st with rng := posr.2 }
                    let spr := rngUniformZero (lane.speed_limit * (4 / 5)) st.rng
                    let st := { st with rng := spr.2 }
                    let w : Vehicle :=
                      { vid := i, lane := some lane.lane_id, s := posr.1,
                        v := spr.1, len := vehicleLen }
                    let st := setVeh st i w
                    let st := setModel st i (mkVehicleIDM cfg lane.speed_limit)
                    let st := setRoute st i ⟨path, 0, eId⟩
                    let st := laneAppend st lane.lane_id i
                    { st with vehicles := st.vehicles ++ [i] }
              else st

/-- The initial, empty simulation state `start_simulation` begins from
(app.py lines 397-399, 433-436). -/
def emptySimState (cfg : WebConfig) (net : Network) (rng : Rng) : SimState :=
  { net := net, vehicles := [], veh := fun j => ⟨j, none, 0, 0, vehicleLen⟩,
    laneVehicles := fun _ => [], routes := fun _ => none,
    models := fun _ => none, default_idm := defaultIDM cfg, stepCount := 0,
    rng := rng }

/-- The vehicle-placement phase of `start_simulation` (app.py lines
500-581): the loop body above run for `i = 0 … num_vehicles - 1`.  All
randomness comes from the *global, unseeded* `random` module, modelled as
the `rng` input. -/
def placeVehicles (cfg : WebConfig) (net : Network) (rng : Rng) : SimState :=
  (List.range cfg.num_vehicles).foldl (placeLoopBody cfg net)
    (emptySimState cfg net rng)

/-! ### `engine_manager.py` — `SimulationEngineManager`. -/

/-- The C++ `jamfree.SimulationEngine` behind the manager. -/
structure Engine where
  step_count : ℕ
  time : ℚ
deriving DecidableEq, Repr

/-- Modelled from the spec: `SimulationEngine.step()` (C++, not under src/)
advances one fixed-`dt` tick (spec §4.10; `dt = 0.1`,
engine_manager.py line 163). -/
def Engine.stepOne (e : Engine) : Engine := ⟨e.step_count + 1, e.time + 1 / 10⟩

/-- The manager's state (engine_manager.py lines 56-75): the engine
reference, `self.model`, the agent list and the probe. -/
structure Manager where
  engine : Option Engine
  modelRef : Option Unit
  vehicles : List ℕ
  probe : Option Unit
deriving DecidableEq, Repr

inductive StepResult where
  | ok (step : ℕ) (vehicleIds : List ℕ)
  | err (msg : String)
deriving DecidableEq, Repr

def engineNotInitializedMsg : String := "Engine not initialized"

/-- `SimulationEngineManager.step` (engine_manager.py lines 210-299): with
no engine, return `{'error': 'Engine not initialized'}` and touch nothing;
otherwise advance the engine one tick and answer with the step count and
the per-agent records (abbreviated here to the agent ids; the record's
fields and units are modelled by `emVehicleRecordFields`/`recordSpeedKmh`). -/
def Manager.step (m : Manager) : StepResult × Manager :=
  match m.engine with
  | none => (StepResult.err engineNotInitializedMsg, m)
  | some e =>
      let e2 := e.stepOne
      (StepResult.ok e2.step_count m.vehicles, { m with engine := some e2 })

/-- `SimulationEngineManager.stop` (engine_manager.py lines 301-308). -/
def Manager.stop (m : Manager) : Manager :=
  { m with engine := none, modelRef := none, vehicles := [], probe := none }

/-- engine_manager.py lines 314-316. -/
def Manager.is_initialized (m : Manager) : Bool := m.engine.isSome

/-- engine_manager.py lines 310-312. -/
def Manager.get_vehicle_count (m : Manager) : ℕ := m.vehicles.length

/-- `n` successive `step()` calls and their results. -/
def stepN : ℕ → Manager → List StepResult × Manager
  | 0, m => ([], m)
  | n + 1, m =>
      let r := m.step
      let rest := stepN n r.2
      (r.1 :: rest.1, rest.2)

/-! ### The per-vehicle record fields of the two snapshot builders. -/

/-- The keys of the per-vehicle dict built by engine_manager.py
lines 263-270. -/
def emVehicleRecordFields : List String :=
  ["id", "lat", "lon", "speed", "angle", "lane_id"]

/-- The keys of the per-vehicle dict built by app.py lines 786-794. -/
def appVehicleRecordFields : List String :=
  ["id", "x", "y", "lat", "lon", "angle", "speed"]

/-- The field set claim C8 requires of a vehicle record. -/
def claimedVehicleRecordFields : List String :=
  ["id", "lane_id", "s", "v", "a", "length"]

/-- The speed conversion both record builders apply:
`get_speed() * 3.6` (m/s → km/h), app.py line 793 and engine_manager.py
line 267. -/
def recordSpeedKmh (v : ℚ) : ℚ := v * (18 / 5)

/-! ### Claim C10 — `stop()` semantics of the engine manager. -/

theorem stop_step_eq (m : Manager) :
    (m.stop).step = (StepResult.err engineNotInitializedMsg, m.stop) := rfl

/-- C10: after `SimulationEngineManager.stop()`, `is_initialized()` returns
`False`, `get_vehicle_count()` returns `0`, and every one of the `n`
subsequent `step()` calls returns `{'error': 'Engine not initialized'}`
while leaving the manager's state exactly as `stop()` left it. -/
theorem C10_stop_semantics (m : Manager) (n : ℕ) :
    (m.stop).is_initialized = false ∧
    (m.stop).get_vehicle_count = 0 ∧
    (stepN n m.stop).2 = m.stop ∧
    (stepN n m.stop).1.all
      (fun r => decide (r = StepResult.err engineNotInitializedMsg)) = true := by
  refine ⟨rfl, rfl, ?_⟩
  induction n with
  | zero => exact ⟨rfl, rfl⟩
  | succ k ih =>
      rw [stepN]
      simp only [stop_step_eq, List.all_cons]
      exact ⟨ih.1, by simp [ih.2]⟩

/-! ### Claim C7 — configuration validation. -/

/-- C7 counterexample: posting `{'adaptive_threshold': 0}` to `/api/config`
is accepted and stored with status `ok` — no configuration is ever rejected
at construction — and the adaptive configuration built from it has
`micro_to_macro_count = 0 = macro_to_micro_count`, so the enter-count
threshold is *not* strictly above the leave-count threshold. -/
theorem C7_no_validation_cex :
    (configPost defaultWebConfig { adaptive_threshold := some 0 }).2 = ApiStatus.ok ∧
    (configPost defaultWebConfig { adaptive_threshold := some 0 }).1.adaptive_threshold = 0 ∧
    ¬ ((buildAdaptiveConfig 0).macro_to_micro_count <
        (buildAdaptiveConfig 0).micro_to_macro_count) := by
  refine ⟨rfl, rfl, ?_⟩
  norm_num [buildAdaptiveConfig, pyInt]

/-- C7 (amended): the configuration route performs no validation — every
posted update is merged and answered with status `ok`, never a fatal
error — and the adaptive configuration built in `start_simulation` has
density thresholds fixed at `0.08 > 0.04` while its count thresholds
satisfy enter strictly above leave exactly for `adaptive_threshold ≥ 1`. -/
theorem C7_config_accepts_everything (c : WebConfig) (p : ConfigPatch) (t : ℤ) :
    (configPost c p).2 = ApiStatus.ok ∧
    (configPost c p).1 = applyPatch c p ∧
    (buildAdaptiveConfig t).macro_to_micro_density <
      (buildAdaptiveConfig t).micro_to_macro_density ∧
    (1 ≤ t → (buildAdaptiveConfig t).macro_to_micro_count <
      (buildAdaptiveConfig t).micro_to_macro_count) := by
  refine ⟨rfl, rfl, by norm_num [buildAdaptiveConfig], ?_⟩
  intro ht
  show pyInt ((t : ℚ) * (2 / 5)) < t
  have h1 : (1 : ℚ) ≤ (t : ℚ) := by exact_mod_cast ht
  unfold pyInt
  rw [if_pos (by nlinarith), Int.floor_lt]
  nlinarith

/-! ### Claim C8 — snapshot vehicle-record fields. -/

/-- C8 counterexample: neither snapshot builder produces records with the
claimed field set `{id, lane_id, s, v, a, length}` — engine_manager.py
builds `{id, lat, lon, speed, angle, lane_id}` and app.py builds
`{id, x, y, lat, lon, angle, speed}` — and the reported speed is converted
to km/h (`10 m/s` is reported as `36`), not the simulation's native m/s. -/
theorem C8_record_fields_cex :
    emVehicleRecordFields.toFinset ≠ claimedVehicleRecordFields.toFinset ∧
    appVehicleRecordFields.toFinset ≠ claimedVehicleRecordFields.toFinset ∧
    recordSpeedKmh 10 ≠ 10 := by
  refine ⟨by decide, by decide, by norm_num [recordSpeedKmh]⟩

/-- C8 (amended): every record the per-vehicle update emits reports
`speed = 3.6 · v` (km/h) for the vehicle's committed speed `v`, and the
record key sets are `{id, x, y, lat, lon, angle, speed}` (app.py) resp.
`{id, lat, lon, speed, angle, lane_id}` (engine_manager.py) — in
particular no `s`, `v`, `a` or `length` key. -/
theorem C8_record_fields_amended (raises : ℕ → Bool) (st : SimState) (vid : ℕ) :
    ((updateVehicleOne raises st vid).2).all
      (fun r => decide
        (r.speed = recordSpeedKmh (((updateVehicleOne raises st vid).1).veh vid).v)) = true ∧
    appVehicleRecordFields.contains "speed" = true ∧
    appVehicleRecordFields.contains "v" = false ∧
    appVehicleRecordFields.contains "s" = false ∧
    emVehicleRecordFields.contains "lane_id" = true ∧
    emVehicleRecordFields.contains "length" = false := by
  refine ⟨?_, by decide, by decide, by decide, by decide, by decide⟩
  unfold updateVehicleOne
  split_ifs
  · rfl
  · cases hm : (st.veh vid).lane.bind (findLane st.net) with
    | none => rfl
    | some lane => simp [mkVizRec, setVeh, recordSpeedKmh]

/-! ### Claim C1 — determinism of `start_simulation` and `simulation_step`. -/

/-- A two-road network: road 0 (one lane, id 100) feeds road 1 (lane
id 101); the only shortest path is `[0, 1]`. -/
def laneR0 : Lane := ⟨100, 0, 100, 30⟩

def laneR1 : Lane := ⟨101, 0, 100, 30⟩

def roadR0 : Road := ⟨0, [laneR0], 100, 0, 0⟩

def roadR1 : Road := ⟨1, [laneR1], 100, 0, 0⟩

def netC1 : Network :=
  ⟨[roadR0, roadR1], fun a b => if a = 0 ∧ b = 1 then some [0, 1] else none,
    fun _ _ => (0, 0), fun _ _ => 0, fun _ => (0, 0)⟩

def cfgC1 : WebConfig := { defaultWebConfig with num_vehicles := 1 }

/-- Two states of the global (unseeded) `random` module.  Both draw the
origin/destination pair `(0, 1)` and lane index `0`; they differ only in
the draw behind `random.uniform(0, min(50, L))`. -/
def rngA : Rng := ⟨[0, 1, 0, 0, 0]⟩

def rngB : Rng := ⟨[0, 1, 0, 2 ^ 52, 0]⟩

/-- C1 counterexample: two runs of `start_simulation`'s placement with
identical configuration, identical (empty) initial population, identical
influence sequence and identical network — there is no seed input at all in
the code — place the single vehicle at `s = 0` resp. `s = 25`, because the
placement draws from Python's global unseeded `random` module, which is not
among the claimed inputs.  And two `simulation_step` calls from the same
state whose measured wall-clock durations differ return different response
bodies, because the response embeds `update_time_ms`. -/
theorem C1_determinism_cex :
    ((placeVehicles cfgC1 netC1 rngA).veh 0).s = 0 ∧
    ((placeVehicles cfgC1 netC1 rngB).veh 0).s = 25 ∧
    ((0 : ℚ) = 25 → False) ∧
    (simulationStepFull (fun _ => false) (emptySimState cfgC1 netC1 rngA) 1).2 ≠
      (simulationStepFull (fun _ => false) (emptySimState cfgC1 netC1 rngA) 2).2 := by
  refine ⟨?_, ?_, by norm_num, ?_⟩
  · norm_num [placeVehicles, placeLoopBody, emptySimState, getRandomOD, getRandomODAux,
      rngChoice, rngRandintZero, rngUniformZero, Rng.next, Network.roadIds, findRoad,
      netC1, roadR0, roadR1, laneR0, laneR1, cfgC1, defaultWebConfig, setVeh, setModel,
      setRoute, laneAppend, mkVehicleIDM, rngA, vehicleLen, List.range_succ]
  · norm_num [placeVehicles, placeLoopBody, emptySimState, getRandomOD, getRandomODAux,
      rngChoice, rngRandintZero, rngUniformZero, Rng.next, Network.roadIds, findRoad,
      netC1, roadR0, roadR1, laneR0, laneR1, cfgC1, defaultWebConfig, setVeh, setModel,
      setRoute, laneAppend, mkVehicleIDM, rngB, vehicleLen, List.range_succ]
  · intro h
    have h2 := congrArg StepResponse.update_time_ms h
    norm_num [simulationStepFull, mandatoryLaneChangePass, updateVehiclesPass,
      roadTransitionPass, emptySimState, pyRound2, halfEvenRound] at h2

/-- C1 (amended): with the global RNG stream fixed (as part of the state)
and the sequential baseline path, a tick is a pure function of the state;
the committed state and the response's `step`, `vehicles` and
`vehicles_count` fields do not depend on the measured wall-clock duration —
only `update_time_ms` and `speedup_factor` do. -/
theorem C1_determinism_amended (raises : ℕ → Bool) (st : SimState) (t1 t2 : ℚ) :
    (simulationStepFull raises st t1).1 = (simulationStepFull raises st t2).1 ∧
    (simulationStepFull raises st t1).2.step = (simulationStepFull raises st t2).2.step ∧
    (simulationStepFull raises st t1).2.vehicles =
      (simulationStepFull raises st t2).2.vehicles ∧
    (simulationStepFull raises st t1).2.vehicles_count =
      (simulationStepFull raises st t2).2.vehicles_count :=
  ⟨rfl, rfl, rfl, rfl⟩

/-! ### Claim C4 — lane-change queueing and reservation. -/

/-- A three-lane road 0 turning right into single-lane road 1 (the next
road's start heading is −π/3 relative to road 0's end heading, so
`get_target_lane_index` sends everyone to lane index 0). -/
def laneA0 : Lane := ⟨10, 0, 1000, 30⟩

def laneA1 : Lane := ⟨11, 1, 1000, 30⟩

def laneA2 : Lane := ⟨12, 2, 1000, 30⟩

def roadA : Road := ⟨0, [laneA0, laneA1, laneA2], 1000, 0, 0⟩

def laneB0 : Lane := ⟨20, 0, 500, 30⟩

def roadB : Road := ⟨1, [laneB0], 500, -(1 / 3), 0⟩

def netC4 : Network :=
  ⟨[roadA, roadB], fun _ _ => none, fun _ _ => (0, 0), fun _ _ => 0, fun _ => (0, 0)⟩

/-- Vehicles 1 and 2 sit at the same arc length `s = 950` on lanes 11 and
12 of road 0, both 50 m from the road end, both routed onto road 1. -/
def stC4 : SimState :=
  { net := netC4, vehicles := [1, 2],
    veh := fun j =>
      if j = 1 then ⟨1, some 11, 950, 0, 5⟩
      else if j = 2 then ⟨2, some 12, 950, 0, 5⟩
      else ⟨j, none, 0, 0, 5⟩,
    laneVehicles := fun l => if l = 11 then [1] else if l = 12 then [2] else [],
    routes := fun j => if j = 1 ∨ j = 2 then some ⟨[0, 1], 0, 1⟩ else none,
    models := fun _ => none, default_idm := defaultIDM defaultWebConfig,
    stepCount := 0, rng := ⟨[]⟩ }

/-- C4 counterexample: in the routing pre-pass — the *decision phase* of a
tick, before any update or end-of-tick resolution — vehicle 1's live lane
membership is already mutated by `laneChangeOne` (it leaves lane 11), and
after the pass both vehicles 1 and 2 occupy lane 10 at the same position
`s = 950`: both changes into the same gap committed, with no queueing and
no reservation. -/
theorem C4_no_reservation_cex :
    (laneChangeOne stC4 1).laneVehicles 11 ≠ stC4.laneVehicles 11 ∧
    1 ∈ (mandatoryLaneChangePass stC4).laneVehicles 10 ∧
    2 ∈ (mandatoryLaneChangePass stC4).laneVehicles 10 ∧
    ((mandatoryLaneChangePass stC4).veh 1).s = 950 ∧
    ((mandatoryLaneChangePass stC4).veh 2).s = 950 := by
  refine ⟨?_, ?_, ?_, ?_, ?_⟩ <;>
    norm_num [mandatoryLaneChangePass, laneChangeOne, stC4, netC4, roadA, roadB,
      laneA0, laneA1, laneA2, laneB0, findLane, findRoad, targetLaneIndex,
      normalizeAngle, moveVehicle]

/-- C4 (amended): routing lane changes are applied immediately, inside the
pre-update pass, one vehicle at a time: whenever the change conditions hold
(within 60 m of the road end, target lane different from the current one),
processing the vehicle at once removes it from its lane, appends it to the
target lane and repoints it there, keeping its position — there is no
queue, no end-of-tick commit and no per-gap reservation. -/
theorem C4_immediate_commit (st : SimState) (vid : ℕ) (route : Route)
    (lane tgtLane : Lane) (curRoad : Road)
    (hroute : st.routes vid = some route)
    (hlane : (st.veh vid).lane.bind (findLane st.net) = some lane)
    (hd100 : lane.length - (st.veh vid).s < 100)
    (hlen : route.current_index + 1 < route.path.length)
    (hne : targetLaneIndex st.net (route.path.getD route.current_index 0)
      (route.path.getD (route.current_index + 1) 0) lane.index ≠ lane.index)
    (hd60 : lane.length - (st.veh vid).s < 60)
    (hcur : findRoad st.net (route.path.getD route.current_index 0) = some curRoad)
    (htgt : curRoad.lanes.get? (targetLaneIndex st.net
      (route.path.getD route.current_index 0)
      (route.path.getD (route.current_index + 1) 0) lane.index) = some tgtLane) :
    ((laneChangeOne st vid).veh vid).lane = some tgtLane.lane_id ∧
    vid ∈ (laneChangeOne st vid).laneVehicles tgtLane.lane_id ∧
    ((laneChangeOne st vid).veh vid).s = (st.veh vid).s := by
  have key : laneChangeOne st vid = moveVehicle st vid lane.lane_id tgtLane.lane_id := by
    unfold laneChangeOne
    rw [hroute, hlane]
    dsimp only
    rw [if_pos ⟨hd100, hlen⟩, if_pos hne, if_pos hd60, hcur]
    dsimp only
    rw [htgt]
  rw [key]
  refine ⟨by simp [moveVehicle], ?_, by simp [moveVehicle]⟩
  simp [moveVehicle]

/-- C4 witness: the amended theorem at `stC4`, vehicle 1: after
`laneChangeOne` it sits on lane 10 (road 0's rightmost lane) at its old
position. -/
theorem C4_immediate_commit_witness :
    ((laneChangeOne stC4 1).veh 1).lane = some laneA0.lane_id ∧
    1 ∈ (laneChangeOne stC4 1).laneVehicles laneA0.lane_id ∧
    ((laneChangeOne stC4 1).veh 1).s = (stC4.veh 1).s :=
  C4_immediate_commit stC4 1 ⟨[0, 1], 0, 1⟩ laneA1 laneA0 roadA
    (by norm_num [stC4])
    (by norm_num [stC4, netC4, findLane, roadA, roadB, laneA0, laneA1, laneA2, laneB0])
    (by norm_num [stC4, laneA1])
    (by norm_num)
    (by norm_num [stC4, netC4, targetLaneIndex, findRoad, roadA, roadB, laneA1,
      normalizeAngle])
    (by norm_num [stC4, laneA1])
    (by norm_num [stC4, netC4, findRoad, roadA, roadB])
    (by norm_num [stC4, netC4, targetLaneIndex, findRoad, roadA, roadB, laneA1,
      normalizeAngle, laneA0, laneA2, laneB0])

/-! ### Claims C2 and C5 — the road-transition pass. -/

/-- Roads 5 and 6 (one 100 m lane each, ids 30/31) both feed road 7 (one
200 m lane, id 32). -/
def laneT1 : Lane := ⟨30, 0, 100, 30⟩

def laneT2 : Lane := ⟨31, 0, 100, 30⟩

def laneT3 : Lane := ⟨32, 0, 200, 30⟩

def roadT1 : Road := ⟨5, [laneT1], 100, 0, 0⟩

def roadT2 : Road := ⟨6, [laneT2], 100, 0, 0⟩

def roadT3 : Road := ⟨7, [laneT3], 200, 0, 0⟩

def netT : Network :=
  ⟨[roadT1, roadT2, roadT3], fun _ _ => none, fun _ _ => (0, 0), fun _ _ => 0,
    fun _ => (0, 0)⟩

/-- Two vehicles past the end of their 100 m lanes (`s = 105`, `s = 103`),
both routed onto road 7. -/
def stC2 : SimState :=
  { net := netT, vehicles := [1, 2],
    veh := fun j =>
      if j = 1 then ⟨1, some 30, 105, 0, 5⟩
      else if j = 2 then ⟨2, some 31, 103, 0, 5⟩
      else ⟨j, none, 0, 0, 5⟩,
    laneVehicles := fun l => if l = 30 then [1] else if l = 31 then [2] else [],
    routes := fun j =>
      if j = 1 then some ⟨[5, 7], 0, 7⟩
      else if j = 2 then some ⟨[6, 7], 0, 7⟩ else none,
    models := fun _ => none, default_idm := defaultIDM defaultWebConfig,
    stepCount := 0, rng := ⟨[]⟩ }

/-- The two vehicles of `stC2` after the update pass integrates them. -/
def w1C2 : Vehicle := ⟨1, some 30, 21001 / 200, 1 / 10, 5⟩

def w2C2 : Vehicle := ⟨2, some 31, 20601 / 200, 1 / 10, 5⟩

set_option maxHeartbeats 1000000 in
theorem stC2_laneChange : mandatoryLaneChangePass stC2 = stC2 := by
  norm_num [mandatoryLaneChangePass, laneChangeOne, stC2, netT, roadT1, roadT2,
    roadT3, laneT1, laneT2, laneT3, findLane, findRoad, targetLaneIndex,
    normalizeAngle]

set_option maxHeartbeats 1000000 in
theorem stC2_update :
    (updateVehiclesPass (fun _ => false) stC2).1 = setVeh (setVeh stC2 1 w1C2) 2 w2C2 := by
  norm_num [updateVehiclesPass, updateVehicleOne, stC2, netT, roadT1, roadT2,
    roadT3, laneT1, laneT2, laneT3, findLane, leaderFind, idmAccel, integrate,
    dtStep, gapEps, defaultIDM, defaultWebConfig, idmSqrtConst, idmHardDecel,
    w1C2, w2C2, max_def, min_def]

set_option maxHeartbeats 1000000 in
/-- C2 counterexample: after the tick commits (one whole `simulation_step`
from `stC2`), the MICRO lane 32 holds the two distinct transferred vehicles
1 and 2 *both at position `s = 0`* (each 5 m long): under no ordering of
the lane are the positions strictly increasing, and the pairwise spacing is
`0`, below the leader's length `5`. -/
theorem C2_ordering_violated_cex :
    1 ∈ (simulationStepFull (fun _ => false) stC2 1).1.laneVehicles 32 ∧
    2 ∈ (simulationStepFull (fun _ => false) stC2 1).1.laneVehicles 32 ∧
    ((simulationStepFull (fun _ => false) stC2 1).1.veh 1).s = 0 ∧
    ((simulationStepFull (fun _ => false) stC2 1).1.veh 2).s = 0 ∧
    ((simulationStepFull (fun _ => false) stC2 1).1.veh 1).len = 5 := by
  have hstep : (simulationStepFull (fun _ => false) stC2 1).1 =
      { roadTransitionPass (setVeh (setVeh stC2 1 w1C2) 2 w2C2) with
        stepCount :=
          (roadTransitionPass (setVeh (setVeh stC2 1 w1C2) 2 w2C2)).stepCount + 1 } := by
    show ({ roadTransitionPass
        (updateVehiclesPass (fun _ => false) (mandatoryLaneChangePass stC2)).1 with
      stepCount := _ } : SimState) = _
    rw [stC2_laneChange, stC2_update]
  rw [hstep]
  refine ⟨?_, ?_, ?_, ?_, ?_⟩ <;>
    norm_num [roadTransitionPass, transitionOne, stC2, netT, roadT1, roadT2, roadT3,
      laneT1, laneT2, laneT3, findLane, findRoad, w1C2, w2C2]

theorem transitionOne_eq_of_not_crosses (st : SimState) (vid : ℕ)
    (h : crossesB st vid = false) : transitionOne st vid = st := by
  unfold transitionOne
  unfold crossesB at h
  cases hm : (st.veh vid).lane.bind (findLane st.net) with
  | none => rfl
  | some lane =>
      rw [hm] at h
      dsimp only at h ⊢
      rw [if_neg (by simpa using h)]

/-- C2 (amended): the tick does not re-establish the ordering invariant —
the transition pass drops every transferred vehicle at `s = 0` (see the
counterexample) and never re-sorts.  What does hold: a state in which no
vehicle is past its lane's end is left exactly unchanged by the transition
pass, so a lane's ordering after the pass is whatever it was before. -/
theorem C2_ordering_not_enforced (st : SimState)
    (h : st.vehicles.all (fun vid => !(crossesB st vid)) = true) :
    roadTransitionPass st = st := by
  unfold roadTransitionPass
  have hall : ∀ vid ∈ st.vehicles, crossesB st vid = false := by
    intro v hv
    simpa using List.all_eq_true.mp h v hv
  generalize st.vehicles = l at hall ⊢
  induction l with
  | nil => rfl
  | cons a tl ih =>
      rw [List.foldl_cons, transitionOne_eq_of_not_crosses st a (hall a (by simp))]
      exact ih (fun v hv => hall v (by simp [hv]))

/-- C2 witness: the amended theorem at `stC4` (both vehicles at `s = 950`
on 1000 m lanes, nobody past the end): the transition pass is the
identity there. -/
theorem C2_ordering_not_enforced_witness : roadTransitionPass stC4 = stC4 :=
  C2_ordering_not_enforced stC4
    (by norm_num [stC4, crossesB, findLane, netC4, roadA, roadB, laneA0, laneA1,
      laneA2, laneB0])

/-- Vehicle 1 past its lane with a next road; vehicle 2 exactly at `s = L`;
vehicle 3 past its lane with no route at all. -/
def stC5 : SimState :=
  { net := netT, vehicles := [1, 2, 3],
    veh := fun j =>
      if j = 1 then ⟨1, some 30, 105, 0, 5⟩
      else if j = 2 then ⟨2, some 31, 100, 0, 5⟩
      else if j = 3 then ⟨3, some 32, 207, 0, 5⟩
      else ⟨j, none, 0, 0, 5⟩,
    laneVehicles := fun l =>
      if l = 30 then [1] else if l = 31 then [2] else if l = 32 then [3] else [],
    routes := fun j => if j = 1 then some ⟨[5, 7], 0, 7⟩ else none,
    models := fun _ => none, default_idm := defaultIDM defaultWebConfig,
    stepCount := 0, rng := ⟨[]⟩ }

/-- C5 counterexample: in the road-transition pass, (a) vehicle 1 with
`s = 105 > L = 100` and a next road is moved there at position `0`, *not*
at the overflow `s − L = 5`; (b) vehicle 2 with `s = L` exactly is not
moved at all (the code's condition is strict `>`, the claim's is `≥`);
(c) vehicle 3 with `s = 207 > L` and no successor is *not removed*: it
stays in the vehicle list, halted at the lane end with speed `0`. -/
theorem C5_overflow_discarded_cex :
    ((roadTransitionPass stC5).veh 1).lane = some 32 ∧
    ((roadTransitionPass stC5).veh 1).s = 0 ∧
    (stC5.veh 1).s - laneT1.length = 5 ∧
    ((0 : ℚ) = 5 → False) ∧
    (roadTransitionPass stC5).veh 2 = stC5.veh 2 ∧
    (stC5.veh 2).s = laneT2.length ∧
    ((roadTransitionPass stC5).veh 3).s = laneT3.length ∧
    ((roadTransitionPass stC5).veh 3).v = 0 ∧
    3 ∈ (roadTransitionPass stC5).vehicles := by
  refine ⟨?_, ?_, ?_, by norm_num, ?_, ?_, ?_, ?_, ?_⟩ <;>
    norm_num [roadTransitionPass, transitionOne, stC5, netT, roadT1, roadT2, roadT3,
      laneT1, laneT2, laneT3, findLane, findRoad, setVeh, setRoute, setDesiredSpeed,
      moveVehicle, clampStop, getRandomOD, Network.roadIds]

/-- C5 (amended): the transition pass never removes a vehicle from the
simulation, and for a vehicle whose position strictly exceeds its lane's
length: with a next road on its route it is moved onto that road's lane at
position `0` (the overflow `s − L` is discarded); with no route it is
halted in place at `s = L`, `v = 0`. -/
theorem C5_transition_amended (st : SimState) (vid : ℕ) :
    (transitionOne st vid).vehicles = st.vehicles ∧
    (∀ lane, (st.veh vid).lane.bind (findLane st.net) = some lane →
      lane.length < (st.veh vid).s →
      ((st.routes vid = none → transitionOne st vid = clampStop st vid lane) ∧
       (∀ route nextRoad nextLane,
          st.routes vid = some route →
          route.current_index + 1 < route.path.length →
          findRoad st.net (route.path.getD (route.current_index + 1) 0) = some nextRoad →
          nextRoad.lanes.get? (min lane.index (nextRoad.lanes.length - 1)) =
            some nextLane →
          ((transitionOne st vid).veh vid).s = 0 ∧
          ((transitionOne st vid).veh vid).lane = some nextLane.lane_id ∧
          vid ∈ (transitionOne st vid).laneVehicles nextLane.lane_id))) := by
  constructor
  · exact (transitionOne_frame st vid).1
  · intro lane hlane hcross
    constructor
    · intro hnone
      unfold transitionOne
      rw [hlane]
      dsimp only
      rw [if_pos hcross, hnone]
    · intro route nextRoad nextLane hroute hidx hfind hget
      have key : transitionOne st vid =
          setDesiredSpeed
            (setRoute
              (setVeh (moveVehicle st vid lane.lane_id nextLane.lane_id) vid
                { (moveVehicle st vid lane.lane_id nextLane.lane_id).veh vid with s := 0 })
              vid { route with current_index := route.current_index + 1 })
            vid nextLane.speed_limit := by
        unfold transitionOne
        rw [hlane]
        dsimp only
        rw [if_pos hcross, hroute]
        dsimp only
        rw [if_pos hidx, hfind]
        dsimp only
        rw [hget]
      rw [key]
      refine ⟨?_, ?_, ?_⟩ <;> simp

/-! ### Claim C3 — scratch-buffer / pre-integration reads. -/

/-- A single 1000 m lane (id 40) on road 8. -/
def laneU : Lane := ⟨40, 0, 1000, 30⟩

def roadU : Road := ⟨8, [laneU], 1000, 0, 0⟩

def netU : Network :=
  ⟨[roadU], fun _ _ => none, fun _ _ => (0, 0), fun _ _ => 0, fun _ => (0, 0)⟩

/-- Vehicle 1 (the leader, `s = 50`) precedes vehicle 2 (the follower,
`s = 40`) in the global update order; both on lane 40. -/
def stC3 : SimState :=
  { net := netU, vehicles := [1, 2],
    veh := fun j =>
      if j = 1 then ⟨1, some 40, 50, 0, 5⟩
      else if j = 2 then ⟨2, some 40, 40, 0, 5⟩
      else ⟨j, none, 0, 0, 5⟩,
    laneVehicles := fun l => if l = 40 then [1, 2] else [],
    routes := fun _ => none, models := fun _ => none,
    default_idm := defaultIDM defaultWebConfig, stepCount := 0, rng := ⟨[]⟩ }

set_option maxHeartbeats 1000000 in
/-- C3 counterexample: the sequential update pass — which writes each
vehicle's integration straight into its live state — produces a different
committed speed for the follower than the spec's scratch-buffer semantics
(`updateVehiclesSnapshot`, every decision reading the pre-integration
state): in `stC3` the follower's IDM gap is evaluated against the leader's
*post-integration* position, so some vehicle's update observes another
vehicle's post-integration state of the same tick. -/
theorem C3_scratch_buffer_cex :
    ((updateVehiclesPass (fun _ => false) stC3).1.veh 2).v ≠
      ((updateVehiclesSnapshot (fun _ => false) stC3).veh 2).v := by
  norm_num [updateVehiclesPass, updateVehiclesSnapshot, updateVehicleOne, stC3, netU,
    roadU, laneU, findLane, leaderFind, idmAccel, integrate, dtStep, gapEps,
    defaultIDM, defaultWebConfig, idmSqrtConst, idmHardDecel, max_def, min_def]

/-- C3 (amended): there is no scratch buffer: updates are applied in place
in global list order, and a follower processed after its leader reads the
leader's post-integration state.  For a two-vehicle list `[a, b]` sharing a
lane, with the updated `a` still ahead of `b`, the committed state of `b`
is the integration of `b` against `a`'s *post-integration* state. -/
theorem C3_follower_reads_updated_leader (st : SimState) (a b : ℕ) (laneA : Lane)
    (hv : st.vehicles = [a, b]) (hab : a ≠ b)
    (hlaneb : (st.veh b).lane.bind (findLane st.net) = some laneA)
    (hmem : st.laneVehicles laneA.lane_id = [a, b])
    (hahead : (st.veh b).s < ((updateVehicleOne (fun _ => false) st a).1.veh a).s) :
    (updateVehiclesPass (fun _ => false) st).1.veh b =
      integrate (st.veh b)
        (idmAccel ((st.models b).getD st.default_idm) (st.veh b)
          (some ((updateVehicleOne (fun _ => false) st a).1.veh a))) dtStep := by
  obtain ⟨hveq, hstep, hnet, hlv, hroutes, hmodels, hdefault, hvehne⟩ :=
    updateVehicleOne_frame (fun _ => false) st a
  have hb : (updateVehicleOne (fun _ => false) st a).1.veh b = st.veh b :=
    hvehne b (Ne.symm hab)
  have hpass : (updateVehiclesPass (fun _ => false) st).1 =
      (updateVehicleOne (fun _ => false) (updateVehicleOne (fun _ => false) st a).1 b).1 := by
    unfold updateVehiclesPass
    rw [hv]
    rfl
  have hlane1 : ((updateVehicleOne (fun _ => false) st a).1.veh b).lane.bind
      (findLane (updateVehicleOne (fun _ => false) st a).1.net) = some laneA := by
    rw [hb, hnet]
    exact hlaneb
  have hleader : leaderFind (updateVehicleOne (fun _ => false) st a).1 laneA.lane_id b =
      some a := by
    unfold leaderFind
    rw [hlv, hmem, hb]
    simp [List.filter, hab, hahead]
  rw [hpass, updateVehicleOne_some (fun _ => false)
    (updateVehicleOne (fun _ => false) st a).1 b laneA rfl hlane1]
  simp [hleader, hmodels, hdefault, hb]

/-- C3 witness: the amended theorem at `stC3`: the follower's committed
state is the integration against the leader's post-integration state. -/
theorem C3_follower_reads_updated_leader_witness :
    (updateVehiclesPass (fun _ => false) stC3).1.veh 2 =
      integrate (stC3.veh 2)
        (idmAccel ((stC3.models 2).getD stC3.default_idm) (stC3.veh 2)
          (some ((updateVehicleOne (fun _ => false) stC3 1).1.veh 1))) dtStep :=
  C3_follower_reads_updated_leader stC3 1 2 laneU rfl (by norm_num)
    (by norm_num [stC3, netU, findLane, roadU, laneU])
    (by norm_num [stC3, laneU])
    (by norm_num [updateVehicleOne, stC3, netU, roadU, laneU, findLane, leaderFind,
      idmAccel, integrate, dtStep, gapEps, defaultIDM, defaultWebConfig,
      idmSqrtConst, idmHardDecel, max_def, min_def])

/-! ### Claim C6 — worker exceptions. -/

/-- The exception oracle: vehicle 7's per-vehicle update raises (the
handler at app.py lines 795-797 turns any such exception into `None`). -/
def raisesC6 : ℕ → Bool := fun j => j == 7

/-- Vehicles 7 and 8 on lane 40; 7 ahead at `s = 20`, 8 behind at `s = 10`. -/
def stC6 : SimState :=
  { net := netU, vehicles := [7, 8],
    veh := fun j =>
      if j = 7 then ⟨7, some 40, 20, 0, 5⟩
      else if j = 8 then ⟨8, some 40, 10, 0, 5⟩
      else ⟨j, none, 0, 0, 5⟩,
    laneVehicles := fun l => if l = 40 then [7, 8] else [],
    routes := fun _ => none, models := fun _ => none,
    default_idm := defaultIDM defaultWebConfig, stepCount := 0, rng := ⟨[]⟩ }

set_option maxHeartbeats 1000000 in
/-- C6 counterexample: vehicle 7's worker raises during the tick, yet the
tick is *not* aborted: the step counter advances, vehicle 8 is still
mutated, and the caller receives a normal snapshot (with one vehicle
record and no error) instead of a propagated exception. -/
theorem C6_exception_swallowed_cex :
    raisesC6 7 = true ∧ 7 ∈ stC6.vehicles ∧
    (simulationStepFull raisesC6 stC6 1).1.stepCount = stC6.stepCount + 1 ∧
    (simulationStepFull raisesC6 stC6 1).1.veh 8 ≠ stC6.veh 8 ∧
    (simulationStepFull raisesC6 stC6 1).2.vehicles.length = 1 := by
  refine ⟨rfl, by norm_num [stC6], ?_, ?_, ?_⟩ <;>
    norm_num [simulationStepFull, mandatoryLaneChangePass, laneChangeOne,
      updateVehiclesPass, updateVehicleOne, roadTransitionPass, transitionOne,
      raisesC6, stC6, netU, roadU, laneU, findLane, findRoad, leaderFind, idmAccel,
      integrate, dtStep, gapEps, defaultIDM, defaultWebConfig, idmSqrtConst,
      idmHardDecel, mkVizRec, max_def, min_def]

/-- C6 (amended): per-vehicle failures are caught inside `update_vehicle`
and merely skip that vehicle: whatever the exception oracle, the tick
always commits — the step counter advances by one and the caller receives
a normal step response carrying the advanced counter, never a propagated
error. -/
theorem C6_tick_always_commits (raises : ℕ → Bool) (st : SimState) (t : ℚ) :
    (simulationStepFull raises st t).1.stepCount = st.stepCount + 1 ∧
    (simulationStepFull raises st t).2.step = st.stepCount + 1 := by
  have h : (roadTransitionPass
      (updateVehiclesPass raises (mandatoryLaneChangePass st)).1).stepCount =
      st.stepCount := by
    rw [roadTransitionPass_stepCount, updateVehiclesPass_stepCount,
      mandatoryLaneChangePass_stepCount]
  constructor
  · simp only [simulationStepFull]
    rw [h]
  · simp only [simulationStepFull]
    rw [h]

end SimilarCpp
